import Mathlib

/-
Shallow embedding of the billing state reconciliation engine of the
wrapper-saas repository.

The embedded code:
  * src/app/api/stripe/webhook/route.ts          (the webhook POST handler)
  * src/unnamed/part_003, first revision         (the checkout POST handler)
  * the webhook helper module quoted verbatim in src/IMPLEMENTATION_REPORT.md
    (isDuplicateEvent, logWebhookEvent, logAlert, updateProfileAtomic,
     isValidSubscriptionStatus)
  * the table schema of src/supabase/migrations (profiles, plans,
    webhook_events with a UNIQUE constraint on event_id, webhook_alerts).

The durable store is modelled as an explicit Db value; every supabase
query of the handlers becomes a pure lookup on that value, and every
update becomes a functional update.  The PostgREST `.single()` call,
which yields a row only when exactly one row matches, is modelled by
`singleRow`.  External Stripe calls that only produce data read by the
handler (retrieving the expanded session's line-item price, retrieving a
subscription for its current_period_end, retrieving a subscription in
the checkout in-place-modification path, creating a hosted checkout
session) are modelled as oracle inputs carried by the event or passed as
parameters, so the handlers stay pure.
-/

namespace WrapperSaas

/-- Row of the plans table: immutable reference data.  Columns follow
src/supabase schema and the columns selected by the handlers. -/
structure Plan where
  plan_id : String
  name : String
  monthly_limit : Nat
  stripe_price_id_pln : Option String
  stripe_price_id_usd : Option String
  price_pln : Int
  price_usd : Int
deriving DecidableEq, Repr

/-- Row of the profiles table: the Subscription Profile of one subscriber.
Timestamps are integers (epoch milliseconds). -/
structure Profile where
  id : String
  plan_id : Option String
  active : Bool
  cancel_at_period_end : Bool
  pending_plan_change : Bool
  target_plan_id : Option String
  subscription_status : String
  stripe_customer_id : Option String
  stripe_subscription_id : Option String
  current_period_end : Option Int
  plan_used : Nat
  last_checkout_at : Option Int
deriving DecidableEq, Repr

/-- Row of the webhook_alerts table (the Alerting Sink). -/
structure Alert where
  type : String
  severity : String
  message : String
deriving DecidableEq, Repr

/-- The durable store: plans, profiles, the Idempotency Ledger
(webhook_events event ids, unique by constraint) and the alerts table. -/
structure Db where
  plans : List Plan
  profiles : List Profile
  ledger : List String
  alerts : List Alert
deriving DecidableEq, Repr

/-- PostgREST `.single()`: the query succeeds only when exactly one row
matches the filter; zero or several matches yield an error, which every
caller in the handlers treats as row-not-found. -/
def singleRow {α : Type} (l : List α) (q : α → Bool) : Option α :=
  match l.filter q with
  | [x] => some x
  | _ => none

/-- Helper isDuplicateEvent of the webhook helper module: a select on
webhook_events by event_id.  The UNIQUE constraint on event_id
guarantees at most one row, so membership in the ledger is exact. -/
def isDuplicateEvent (db : Db) (eventId : String) : Bool :=
  db.ledger.contains eventId

/-- Helper logWebhookEvent: inserts the event id into webhook_events.
A conflicting insert against the UNIQUE constraint fails and the error
is swallowed by the helper, leaving the ledger unchanged. -/
def logWebhookEvent (db : Db) (eventId : String) : Db :=
  if db.ledger.contains eventId then db
  else { db with ledger := eventId :: db.ledger }

/-- Helper logAlert: appends a row to webhook_alerts.  For critical
severity it additionally fires a best-effort external notification,
which touches no state. -/
def logAlert (db : Db) (a : Alert) : Db :=
  { db with alerts := a :: db.alerts }

/-- Helper updateProfileAtomic: a SQL UPDATE of the profiles rows whose
id equals userId, applying the given field changes. -/
def updateProfileAtomic (db : Db) (userId : String) (f : Profile → Profile) : Db :=
  { db with profiles := db.profiles.map (fun p => if p.id == userId then f p else p) }

/-- Helper isValidSubscriptionStatus of the webhook helper module. -/
def isValidSubscriptionStatus (status : String) : Bool :=
  ["active", "trialing", "past_due", "canceled", "unpaid",
   "incomplete", "incomplete_expired", "paused"].contains status

/-- Case-insensitive name comparison of the PostgREST ilike filter used
by the checkout handler's plan lookup (the submitted plan name carries
no wildcard): both names are compared lowered character by character. -/
def ilikeName (a b : String) : Bool :=
  a.data.map Char.toLower == b.data.map Char.toLower

/-- Plan lookup by external price reference, as written in the webhook
handler: or(stripe_price_id_pln.eq, stripe_price_id_usd.eq).single(). -/
def findPlanByPrice (plans : List Plan) (priceId : String) : Option Plan :=
  singleRow plans (fun pl =>
    pl.stripe_price_id_pln == some priceId || pl.stripe_price_id_usd == some priceId)

/-- Profile lookup by stored external customer reference. -/
def findProfileByCustomer (profiles : List Profile) (customerId : String) : Option Profile :=
  singleRow profiles (fun p => p.stripe_customer_id == some customerId)

/-- Profile lookup by stored external subscription reference. -/
def findProfileBySubscription (profiles : List Profile) (subscriptionId : String) : Option Profile :=
  singleRow profiles (fun p => p.stripe_subscription_id == some subscriptionId)

/-- Profile lookup by primary key. -/
def findProfileById (profiles : List Profile) (userId : String) : Option Profile :=
  singleRow profiles (fun p => p.id == userId)

/-- Downgrade classification of the customer.subscription.updated case:
a downgrade exactly when the old plan row was found and the new plan's
monthly usage limit is strictly below the old one. -/
def isDowngradeOf (newPlan : Plan) (oldPlan : Option Plan) : Bool :=
  match oldPlan with
  | some op => newPlan.monthly_limit < op.monthly_limit
  | none => false

/-- Replace only the per-currency price amounts of a plan, keeping its
id, name, usage limit and price references. -/
def Plan.withPriceAmounts (pl : Plan) (a b : Int) : Plan :=
  { pl with price_pln := a, price_usd := b }

/-- Extraction of the subscription id from an invoice in the
invoice.payment_succeeded case: the direct field, then the first invoice
line, then subscription_details. -/
def resolveInvoiceSubscription
    (subscription linesSubscription subscriptionDetailsId : Option String) : Option String :=
  match subscription with
  | some s => some s
  | none =>
      match linesSubscription with
      | some s => some s
      | none => subscriptionDetailsId

/-- Decoded webhook event bodies.  Each constructor carries exactly the
payload fields the corresponding switch case of the handler reads;
`retrievedPeriodEnd` stands for the result of the external
getCurrentPeriodEnd call, `lineItemPriceId` for the price id of the
expanded session's first line item. -/
inductive StripeEvent : Type where
  | checkoutSessionCompleted (customer : Option String) (subscriptionId : Option String)
      (metadataUserId : Option String) (lineItemPriceId : Option String)
  | subscriptionCreated (subscriptionId customer status : String)
      (priceId : Option String) (retrievedPeriodEnd : Option Int)
  | subscriptionUpdated (subscriptionId status : String) (cancelAtPeriodEnd : Bool)
      (priceId : Option String) (retrievedPeriodEnd : Option Int)
  | subscriptionDeleted (subscriptionId : String) (currentPeriodEnd : Option Int)
  | invoicePaymentSucceeded (subscription linesSubscription subscriptionDetailsId : Option String)
      (retrievedPeriodEnd : Option Int)
  | invoicePaymentFailed (subscription : Option String) (nextPaymentAttempt : Option Int)
  | unhandled (eventType : String)
deriving DecidableEq, Repr

/-- Case checkout.session.completed of the webhook handler. -/
def handleCheckoutCompleted (db : Db) (customer : Option String)
    (subscriptionId : Option String) (metadataUserId : Option String)
    (lineItemPriceId : Option String) : Db :=
  match metadataUserId with
  | none =>
      logAlert db { type := "subscription_mismatch", severity := "warning",
                    message := "Missing userId in checkout session metadata" }
  | some userId =>
      match subscriptionId with
      | none => db
      | some subId =>
          match lineItemPriceId with
          | none =>
              logAlert db { type := "missing_price_id", severity := "critical",
                            message := "No price ID found in checkout session line items" }
          | some priceId =>
              match findPlanByPrice db.plans priceId with
              | none =>
                  let db1 := logAlert db
                    { type := "missing_price_id", severity := "critical",
                      message := "Plan not found for price_id" }
                  updateProfileAtomic db1 userId (fun p =>
                    { p with stripe_customer_id := customer,
                             stripe_subscription_id := some subId,
                             active := false,
                             pending_plan_change := false })
              | some plan =>
                  updateProfileAtomic db userId (fun p =>
                    { p with plan_id := some plan.plan_id,
                             active := true,
                             stripe_customer_id := customer,
                             stripe_subscription_id := some subId,
                             subscription_status := "active",
                             pending_plan_change := false,
                             target_plan_id := none })

/-- Case customer.subscription.created of the webhook handler. -/
def handleSubscriptionCreated (db : Db) (subscriptionId customer status : String)
    (priceId : Option String) (retrievedPeriodEnd : Option Int) : Db :=
  match priceId with
  | none => db
  | some pid =>
      match findProfileByCustomer db.profiles customer with
      | none =>
          logAlert db { type := "subscription_mismatch", severity := "warning",
                        message := "Profile not found for Stripe customer" }
      | some profile =>
          match findPlanByPrice db.plans pid with
          | none =>
              logAlert db { type := "missing_price_id", severity := "critical",
                            message := "Plan not found for price_id in subscription.created" }
          | some plan =>
              let db1 := if isValidSubscriptionStatus status then db
                         else logAlert db { type := "unknown_status", severity := "warning",
                                            message := "Unknown subscription status" }
              updateProfileAtomic db1 profile.id (fun p =>
                { p with plan_id := some plan.plan_id,
                         active := status == "active" || status == "trialing",
                         stripe_subscription_id := some subscriptionId,
                         current_period_end := retrievedPeriodEnd,
                         subscription_status := status,
                         pending_plan_change := false,
                         target_plan_id := none })

/-- Case customer.subscription.updated of the webhook handler. -/
def handleSubscriptionUpdated (db : Db) (subscriptionId status : String)
    (cancelAtPeriodEnd : Bool) (priceId : Option String)
    (retrievedPeriodEnd : Option Int) : Db :=
  match priceId with
  | none => db
  | some pid =>
      match findProfileBySubscription db.profiles subscriptionId with
      | none => db
      | some profile =>
          let db1 := if isValidSubscriptionStatus status then db
                     else logAlert db { type := "unknown_status", severity := "warning",
                                        message := "Unknown subscription status in update" }
          match findPlanByPrice db.plans pid with
          | none =>
              updateProfileAtomic db1 profile.id (fun p =>
                { p with active := status == "active" || status == "trialing",
                         current_period_end := retrievedPeriodEnd,
                         subscription_status := status,
                         cancel_at_period_end := cancelAtPeriodEnd })
          | some newPlan =>
              let oldPlan := match profile.plan_id with
                | none => none
                | some oldId => singleRow db.plans (fun pl => pl.plan_id == oldId)
              let downgrade := isDowngradeOf newPlan oldPlan
              updateProfileAtomic db1 profile.id (fun p =>
                let base := { p with
                  plan_id := some newPlan.plan_id,
                  active := status == "active" || status == "trialing",
                  current_period_end := retrievedPeriodEnd,
                  subscription_status := status,
                  cancel_at_period_end := cancelAtPeriodEnd,
                  pending_plan_change := false,
                  target_plan_id := (none : Option String) }
                if downgrade then { base with plan_used := 0 } else base)

/-- Case customer.subscription.deleted of the webhook handler.  The
period end is read directly off the event object; comparison with the
current time is strict. -/
def handleSubscriptionDeleted (db : Db) (subscriptionId : String)
    (currentPeriodEnd : Option Int) (now : Int) : Db :=
  match findProfileBySubscription db.profiles subscriptionId with
  | none => db
  | some profile =>
      let isGracePeriod : Bool := match currentPeriodEnd with
        | some cpe => decide (now < cpe)
        | none => false
      if isGracePeriod then
        updateProfileAtomic db profile.id (fun p =>
          { p with active := true,
                   cancel_at_period_end := true,
                   current_period_end := currentPeriodEnd,
                   subscription_status := "canceled" })
      else
        updateProfileAtomic db profile.id (fun p =>
          { p with plan_id := none,
                   active := false,
                   current_period_end := none,
                   plan_used := 0,
                   cancel_at_period_end := false,
                   subscription_status := "canceled",
                   pending_plan_change := false,
                   target_plan_id := none })

/-- Case invoice.payment_succeeded of the webhook handler. -/
def handleInvoicePaymentSucceeded (db : Db)
    (subscription linesSubscription subscriptionDetailsId : Option String)
    (retrievedPeriodEnd : Option Int) : Db :=
  match resolveInvoiceSubscription subscription linesSubscription subscriptionDetailsId with
  | none => db
  | some subId =>
      match findProfileBySubscription db.profiles subId with
      | none => db
      | some profile =>
          updateProfileAtomic db profile.id (fun p =>
            let base := { p with plan_used := 0, active := true,
                                 cancel_at_period_end := false }
            match retrievedPeriodEnd with
            | some cpe => { base with current_period_end := some cpe }
            | none => base)

/-- Case invoice.payment_failed of the webhook handler. -/
def handleInvoicePaymentFailed (db : Db) (subscription : Option String)
    (nextPaymentAttempt : Option Int) : Db :=
  match subscription with
  | none => db
  | some subId =>
      match findProfileBySubscription db.profiles subId with
      | none => db
      | some profile =>
          match nextPaymentAttempt with
          | some _ => db
          | none =>
              let db1 := updateProfileAtomic db profile.id (fun p =>
                { p with active := false, plan_id := none,
                         subscription_status := "unpaid" })
              logAlert db1 { type := "subscription_mismatch", severity := "warning",
                             message := "Payment failed final attempt, subscription deactivated" }

/-- The switch on event.type of the webhook handler. -/
def handleEvent (db : Db) (e : StripeEvent) (now : Int) : Db :=
  match e with
  | .checkoutSessionCompleted customer subscriptionId metadataUserId lineItemPriceId =>
      handleCheckoutCompleted db customer subscriptionId metadataUserId lineItemPriceId
  | .subscriptionCreated subscriptionId customer status priceId retrievedPeriodEnd =>
      handleSubscriptionCreated db subscriptionId customer status priceId retrievedPeriodEnd
  | .subscriptionUpdated subscriptionId status cancelAtPeriodEnd priceId retrievedPeriodEnd =>
      handleSubscriptionUpdated db subscriptionId status cancelAtPeriodEnd priceId retrievedPeriodEnd
  | .subscriptionDeleted subscriptionId currentPeriodEnd =>
      handleSubscriptionDeleted db subscriptionId currentPeriodEnd now
  | .invoicePaymentSucceeded subscription linesSubscription subscriptionDetailsId retrievedPeriodEnd =>
      handleInvoicePaymentSucceeded db subscription linesSubscription subscriptionDetailsId
        retrievedPeriodEnd
  | .invoicePaymentFailed subscription nextPaymentAttempt =>
      handleInvoicePaymentFailed db subscription nextPaymentAttempt
  | .unhandled _ => db

/-- A decoded, authenticated webhook event envelope. -/
structure WebhookEvent where
  id : String
  body : StripeEvent
deriving DecidableEq, Repr

/-- HTTP response of the webhook endpoint. -/
structure WebhookResponse where
  status : Nat
  received : Bool
  duplicate : Bool
deriving DecidableEq, Repr

/-- Whether the switch of the webhook handler raises.  Every helper and
the getCurrentPeriodEnd adapter catch their own errors, and the
PostgREST queries return error objects instead of throwing, so the one
call inside the switch with no inner catch is the session expansion of
the checkout-completed case (stripe.checkout.sessions.retrieve), reached
once its metadata-userId and subscription checks both passed.
`expandOk = false` stands for that call throwing. -/
def sessionExpandThrows (e : StripeEvent) (expandOk : Bool) : Bool :=
  match e with
  | .checkoutSessionCompleted _ (some _) (some _) _ => !expandOk
  | _ => false

/-- The webhook POST handler.  `parsedEvent = none` stands for a failure
of stripe.webhooks.constructEvent (signature or payload parse), answered
400 by the catch block.  Otherwise: duplicate short-circuit, audit-trail
insert, then the switch.  The outer try wraps the whole switch, so when
the un-guarded session expansion throws (sessionExpandThrows), the
catch-all also answers 400 — after the event id was already recorded in
the ledger.  Every other path answers 200. -/
def webhookPOST (db : Db) (parsedEvent : Option WebhookEvent) (expandOk : Bool) (now : Int) :
    WebhookResponse × Db :=
  match parsedEvent with
  | none => ({ status := 400, received := false, duplicate := false }, db)
  | some ev =>
      if isDuplicateEvent db ev.id then
        ({ status := 200, received := true, duplicate := true }, db)
      else
        let db1 := logWebhookEvent db ev.id
        if sessionExpandThrows ev.body expandOk then
          ({ status := 400, received := false, duplicate := false }, db1)
        else
          ({ status := 200, received := true, duplicate := false }, handleEvent db1 ev.body now)

/-- Iterated sequential delivery of the same parsed event; `expand`
gives the session-expansion outcome of each delivery. -/
def deliverN (db : Db) (ev : WebhookEvent) (expand : Nat → Bool) (now : Int) : Nat → Db
  | 0 => db
  | n + 1 => (webhookPOST (deliverN db ev expand now n) (some ev) (expand n) now).2

/-- HTTP response of the checkout endpoint; remainingSeconds carries the
rate-limit hint of the 429 body. -/
structure CheckoutResponse where
  status : Nat
  remainingSeconds : Option Int
deriving DecidableEq, Repr

/-- View of a subscription retrieved from the external processor in the
in-place-modification path of the checkout handler. -/
structure StripeSubscriptionView where
  status : String
  firstItemId : Option String
deriving DecidableEq, Repr

/-- Pending-state write of the checkout handler: one UPDATE setting
pending_plan_change, target_plan_id and last_checkout_at. -/
def setPendingState (db : Db) (userId : String) (targetPlanId : String) (now : Int) : Db :=
  updateProfileAtomic db userId (fun p =>
    { p with pending_plan_change := true,
             target_plan_id := some targetPlanId,
             last_checkout_at := some now })

/-- Steps 7 to 9 of the checkout handler, reached only after the rate
limit of step 6 passed: pending-change conflict, same-plan check, then
the fork between in-place modification and a new hosted checkout.
`retrievedSubscription = none` stands for a throwing subscriptions
retrieve or update, `checkoutSessionUrl = none` for a session without a
url; both answer 500 without touching the store. -/
def checkoutContinue (db : Db) (userId : String) (plan : Plan)
    (existingProfile : Option Profile) (now : Int)
    (retrievedSubscription : Option StripeSubscriptionView)
    (checkoutSessionUrl : Option String) : CheckoutResponse × Db :=
  if (match existingProfile with
      | some p => p.pending_plan_change
      | none => false) then
    ({ status := 409, remainingSeconds := none }, db)
  else if (match existingProfile with
      | some p => p.plan_id == some plan.plan_id && p.active
      | none => false) then
    ({ status := 400, remainingSeconds := none }, db)
  else
    let hasActiveSubscription := match existingProfile with
      | some p => p.stripe_subscription_id.isSome && p.active
      | none => false
    if hasActiveSubscription then
      match retrievedSubscription with
      | none => ({ status := 500, remainingSeconds := none }, db)
      | some sub =>
          if !(sub.status == "active" || sub.status == "trialing") then
            ({ status := 400, remainingSeconds := none }, db)
          else
            match sub.firstItemId with
            | none => ({ status := 500, remainingSeconds := none }, db)
            | some _ =>
                ({ status := 303, remainingSeconds := none },
                 setPendingState db userId plan.plan_id now)
    else
      match checkoutSessionUrl with
      | none => ({ status := 500, remainingSeconds := none }, db)
      | some _ =>
          ({ status := 303, remainingSeconds := none },
           setPendingState db userId plan.plan_id now)

/-- The checkout POST handler (first revision in src/unnamed/part_003):
authentication, currency whitelist, case-insensitive plan lookup,
per-currency price selection, profile fetch, rate limiting against
last_checkout_at, then checkoutContinue.  `user = none` stands for a
missing or failed authentication. -/
def checkoutPOST (db : Db) (user : Option String) (planName currency : String)
    (now : Int) (retrievedSubscription : Option StripeSubscriptionView)
    (checkoutSessionUrl : Option String) : CheckoutResponse × Db :=
  match user with
  | none => ({ status := 401, remainingSeconds := none }, db)
  | some userId =>
      if !(currency == "PLN" || currency == "USD") then
        ({ status := 400, remainingSeconds := none }, db)
      else
        match singleRow db.plans (fun pl => ilikeName pl.name planName) with
        | none => ({ status := 400, remainingSeconds := none }, db)
        | some plan =>
            let stripePriceId := if currency == "PLN" then plan.stripe_price_id_pln
                                 else plan.stripe_price_id_usd
            match stripePriceId with
            | none => ({ status := 400, remainingSeconds := none }, db)
            | some _ =>
                let existingProfile := findProfileById db.profiles userId
                match existingProfile with
                | some p =>
                    match p.last_checkout_at with
                    | some t =>
                        if now - t < 60000 then
                          ({ status := 429,
                             remainingSeconds := some ((60000 - (now - t) + 999) / 1000) }, db)
                        else
                          checkoutContinue db userId plan existingProfile now
                            retrievedSubscription checkoutSessionUrl
                    | none =>
                        checkoutContinue db userId plan existingProfile now
                          retrievedSubscription checkoutSessionUrl
                | none =>
                    checkoutContinue db userId plan existingProfile now
                      retrievedSubscription checkoutSessionUrl

/-- Biconditional of the pending fields: pending_plan_change is set
exactly when target_plan_id is non-null. -/
def pendingConsistent (p : Profile) : Bool :=
  p.pending_plan_change == p.target_plan_id.isSome

/-- The pending-fields invariant over the whole store. -/
def dbPendingConsistent (db : Db) : Bool :=
  db.profiles.all pendingConsistent

/-- Condition under which the unresolved-plan branch of
checkout.session.completed clears pending_plan_change on a profile whose
target_plan_id is non-null: the one write of the engine that can break
the pending-fields biconditional. -/
def clearsPendingWithoutTarget (db : Db) (e : StripeEvent) : Bool :=
  match e with
  | .checkoutSessionCompleted _ (some _) (some userId) (some priceId) =>
      (findPlanByPrice db.plans priceId).isNone &&
        db.profiles.any (fun p => p.id == userId && p.target_plan_id.isSome)
  | _ => false

/-- Example store and event instantiating the idempotency theorem. -/
def c1Db : Db := { plans := [], profiles := [], ledger := [], alerts := [] }

/-- Example event envelope for the idempotency theorem. -/
def c1Ev : WebhookEvent := { id := "evt_c1", body := StripeEvent.unhandled ("charge.refunded") }

/-- Example profile instantiating the subscription-deleted theorem. -/
def c2Profile : Profile :=
  { id := "user_2", plan_id := some ("pro"), active := true,
    cancel_at_period_end := false, pending_plan_change := false,
    target_plan_id := none, subscription_status := "active",
    stripe_customer_id := some ("cus_2"), stripe_subscription_id := some ("sub_2"),
    current_period_end := some 1000, plan_used := 5, last_checkout_at := none }

/-- Example store instantiating the subscription-deleted theorem. -/
def c2Db : Db := { plans := [], profiles := [c2Profile], ledger := [], alerts := [] }

/-- Example old plan (the larger limit) for the update theorem. -/
def c3PlanOld : Plan :=
  { plan_id := "plan_a", name := "Pro", monthly_limit := 200,
    stripe_price_id_pln := some ("price_a_pln"), stripe_price_id_usd := some ("price_a_usd"),
    price_pln := 99, price_usd := 25 }

/-- Example new plan (the smaller limit) for the update theorem. -/
def c3PlanNew : Plan :=
  { plan_id := "plan_b", name := "Basic", monthly_limit := 50,
    stripe_price_id_pln := some ("price_b_pln"), stripe_price_id_usd := some ("price_b_usd"),
    price_pln := 29, price_usd := 8 }

/-- Example profile on the old plan for the update theorem. -/
def c3Profile : Profile :=
  { id := "user_3", plan_id := some ("plan_a"), active := true, cancel_at_period_end := false,
    pending_plan_change := true, target_plan_id := some ("plan_b"),
    subscription_status := "active", stripe_customer_id := some ("cus_3"),
    stripe_subscription_id := some ("sub_3"),
    current_period_end := some 500, plan_used := 45, last_checkout_at := none }

/-- Example store instantiating the update theorem. -/
def c3Db : Db :=
  { plans := [c3PlanOld, c3PlanNew], profiles := [c3Profile], ledger := [], alerts := [] }

/-- Example profile instantiating the unresolved-price theorem. -/
def c5Profile : Profile :=
  { id := "user_5", plan_id := some ("legacy"), active := true, cancel_at_period_end := false,
    pending_plan_change := false, target_plan_id := none, subscription_status := "active",
    stripe_customer_id := none, stripe_subscription_id := none,
    current_period_end := none, plan_used := 3, last_checkout_at := none }

/-- Example store with an empty plan catalog, so that no price resolves. -/
def c5Db : Db := { plans := [], profiles := [c5Profile], ledger := [], alerts := [] }

/-- Example profile instantiating the payment-failed theorem. -/
def c6Profile : Profile :=
  { id := "user_6", plan_id := some ("pro"), active := true, cancel_at_period_end := false,
    pending_plan_change := false, target_plan_id := none, subscription_status := "active",
    stripe_customer_id := some ("cus_6"), stripe_subscription_id := some ("sub_6"),
    current_period_end := some 900, plan_used := 7, last_checkout_at := none }

/-- Example store instantiating the payment-failed theorem. -/
def c6Db : Db := { plans := [], profiles := [c6Profile], ledger := [], alerts := [] }

/-- Example profile in a pending cancellation, instantiating the
payment-succeeded theorem. -/
def c10Profile : Profile :=
  { id := "user_10", plan_id := some ("pro"), active := true, cancel_at_period_end := true,
    pending_plan_change := false, target_plan_id := none, subscription_status := "canceled",
    stripe_customer_id := some ("cus_10"), stripe_subscription_id := some ("sub_10"),
    current_period_end := some 900, plan_used := 7, last_checkout_at := none }

/-- Example store instantiating the payment-succeeded theorem. -/
def c10Db : Db := { plans := [], profiles := [c10Profile], ledger := [], alerts := [] }

/-- Profile with a pending plan change, used to exhibit the broken
pending-fields biconditional. -/
def c4Profile : Profile :=
  { id := "user_4", plan_id := none, active := false, cancel_at_period_end := false,
    pending_plan_change := true, target_plan_id := some ("plan_b"),
    subscription_status := "inactive", stripe_customer_id := none,
    stripe_subscription_id := none, current_period_end := none, plan_used := 0,
    last_checkout_at := none }

/-- Store with an empty plan catalog and the pending profile above. -/
def c4Db : Db := { plans := [], profiles := [c4Profile], ledger := [], alerts := [] }

/-- Checkout-completed event whose price resolves to no plan, hitting
the pending profile above. -/
def c4Ev : StripeEvent :=
  StripeEvent.checkoutSessionCompleted (some ("cus_4")) (some ("sub_4")) (some ("user_4"))
    (some ("price_q"))

/-- Plan whose price resolves, for the response-status counterexample. -/
def c7Plan : Plan :=
  { plan_id := "plan_c7", name := "Pro", monthly_limit := 100,
    stripe_price_id_pln := some ("price_c7"), stripe_price_id_usd := none,
    price_pln := 49, price_usd := 13 }

/-- Store with a plan catalog but no profiles: every profile lookup
fails. -/
def c7Db : Db := { plans := [c7Plan], profiles := [], ledger := [], alerts := [] }

/-- Subscription-updated event whose subscription reference matches no
profile: a downstream resolution failure. -/
def c7Ev : WebhookEvent :=
  { id := "evt_c7",
    body := StripeEvent.subscriptionUpdated ("sub_c7") ("active") false
      (some ("price_c7")) none }

/-- Fresh checkout-completed event that passed its metadata and
subscription checks, whose session expansion will throw. -/
def c7ExpandEv : WebhookEvent :=
  { id := "evt_c7x",
    body := StripeEvent.checkoutSessionCompleted (some ("cus_7")) (some ("sub_7"))
      (some ("user_7")) (some ("price_c7")) }

/-- Plan whose price resolves, for the identity-resolution
counterexample. -/
def c8Plan : Plan :=
  { plan_id := "plan_c8", name := "Pro", monthly_limit := 100,
    stripe_price_id_pln := some ("price_c8"), stripe_price_id_usd := none,
    price_pln := 49, price_usd := 13 }

/-- Store with a plan catalog but no profiles, for the
identity-resolution counterexample. -/
def c8Db : Db := { plans := [c8Plan], profiles := [], ledger := [], alerts := [] }

/-- Subscription-updated event whose subscription reference matches no
profile. -/
def c8Ev : StripeEvent :=
  StripeEvent.subscriptionUpdated ("sub_c8") ("active") false (some ("price_c8")) none

/-- Plan instantiating the rate-limit theorem. -/
def c9Plan : Plan :=
  { plan_id := "plan_c9", name := "Pro", monthly_limit := 100,
    stripe_price_id_pln := some ("price_c9"), stripe_price_id_usd := none,
    price_pln := 49, price_usd := 13 }

/-- Profile that checked out 30 seconds ago, instantiating the
rate-limit theorem. -/
def c9Profile : Profile :=
  { id := "user_9", plan_id := none, active := false, cancel_at_period_end := false,
    pending_plan_change := false, target_plan_id := none, subscription_status := "inactive",
    stripe_customer_id := none, stripe_subscription_id := none,
    current_period_end := none, plan_used := 0, last_checkout_at := some 100000 }

/-- Store instantiating the rate-limit theorem. -/
def c9Db : Db := { plans := [c9Plan], profiles := [c9Profile], ledger := [], alerts := [] }

@[simp] theorem ledger_logAlert (db : Db) (a : Alert) : (logAlert db a).ledger = db.ledger := rfl

@[simp] theorem ledger_updateProfileAtomic (db : Db) (u : String) (f : Profile → Profile) :
    (updateProfileAtomic db u f).ledger = db.ledger := rfl

/-- The switch of the webhook handler never writes to the Idempotency
Ledger: only the audit-trail insert before the switch does. -/
theorem ledger_handleEvent (db : Db) (e : StripeEvent) (now : Int) :
    (handleEvent db e now).ledger = db.ledger := by
  cases e <;>
    simp only [handleEvent, handleCheckoutCompleted, handleSubscriptionCreated,
      handleSubscriptionUpdated, handleSubscriptionDeleted,
      handleInvoicePaymentSucceeded, handleInvoicePaymentFailed] <;>
    repeat' first | rfl | split

/-- A delivery whose event id is already in the ledger is acknowledged
with 200, flagged duplicate, and leaves the store untouched, whatever
the session-expansion outcome. -/
theorem webhookPOST_duplicate (db : Db) (ev : WebhookEvent) (expandOk : Bool) (now : Int)
    (h : isDuplicateEvent db ev.id = true) :
    webhookPOST db (some ev) expandOk now =
      ({ status := 200, received := true, duplicate := true }, db) := by
  simp [webhookPOST, h]

/-- After any delivery of an event — duplicate, processed, or aborted by
the throwing session expansion — its id is in the ledger. -/
theorem webhookPOST_records (db : Db) (ev : WebhookEvent) (expandOk : Bool) (now : Int) :
    isDuplicateEvent (webhookPOST db (some ev) expandOk now).2 ev.id = true := by
  by_cases h : isDuplicateEvent db ev.id
  · simp [webhookPOST, h]
  · have h' : ev.id ∉ db.ledger := by simpa [isDuplicateEvent] using h
    by_cases hx : sessionExpandThrows ev.body expandOk <;>
      simp [webhookPOST, isDuplicateEvent, logWebhookEvent, ledger_handleEvent, h', hx]

/-- Delivering the same parsed event twice in sequence is the same as
delivering it once, whatever the session-expansion outcomes. -/
theorem webhookPOST_idem (db : Db) (ev : WebhookEvent) (e1 e2 : Bool) (now : Int) :
    (webhookPOST (webhookPOST db (some ev) e1 now).2 (some ev) e2 now).2
      = (webhookPOST db (some ev) e1 now).2 := by
  have h := webhookPOST_records db ev e1 now
  generalize hD : (webhookPOST db (some ev) e1 now).2 = D at h ⊢
  simp [webhookPOST, h]

theorem deliverN_eq_one (db : Db) (ev : WebhookEvent) (expand : Nat → Bool) (now : Int) :
    ∀ n, 1 ≤ n → deliverN db ev expand now n = deliverN db ev expand now 1
  | 1, _ => rfl
  | n + 2, _ => by
      have ih := deliverN_eq_one db ev expand now (n + 1) (by omega)
      show (webhookPOST (deliverN db ev expand now (n + 1)) (some ev) (expand (n + 1)) now).2 = _
      rw [ih]
      exact webhookPOST_idem db ev (expand 0) (expand (n + 1)) now

/-- C1: delivering a webhook event id E to the endpoint N>1 times in
sequence produces the same final store as delivering it once, and
leaves exactly one ledger row for E, whatever the session-expansion
outcome of each delivery; every delivery after the first is detected as
a duplicate and acknowledged with 200 without invoking any state
transition. -/
theorem replay_idempotent (db : Db) (ev : WebhookEvent) (expand : Nat → Bool) (now : Int)
    (n : Nat) (hn : 1 ≤ n) (hfresh : db.ledger.count ev.id = 0) :
    deliverN db ev expand now n = deliverN db ev expand now 1 ∧
    (deliverN db ev expand now n).ledger.count ev.id = 1 ∧
    ∀ (db2 : Db) (e2 : Bool), isDuplicateEvent db2 ev.id = true →
      webhookPOST db2 (some ev) e2 now =
        ({ status := 200, received := true, duplicate := true }, db2) := by
  have hnotmem : ev.id ∉ db.ledger := by
    rw [← List.count_eq_zero]; exact hfresh
  refine ⟨deliverN_eq_one db ev expand now n hn, ?_, ?_⟩
  · rw [deliverN_eq_one db ev expand now n hn]
    show ((webhookPOST db (some ev) (expand 0) now).2).ledger.count ev.id = 1
    by_cases hx : sessionExpandThrows ev.body (expand 0) <;>
      simp [webhookPOST, isDuplicateEvent, logWebhookEvent, ledger_handleEvent,
        hnotmem, hfresh, hx]
  · intro db2 e2 h2
    exact webhookPOST_duplicate db2 ev e2 now h2

/-- Witness for the idempotency theorem at a concrete store and event. -/
theorem replay_idempotent_witness :
    deliverN c1Db c1Ev (fun _ => true) 0 3 = deliverN c1Db c1Ev (fun _ => true) 0 1 ∧
    (deliverN c1Db c1Ev (fun _ => true) 0 3).ledger.count c1Ev.id = 1 ∧
    ∀ (db2 : Db) (e2 : Bool), isDuplicateEvent db2 c1Ev.id = true →
      webhookPOST db2 (some c1Ev) e2 0 =
        ({ status := 200, received := true, duplicate := true }, db2) :=
  replay_idempotent c1Db c1Ev (fun _ => true) 0 3 (by decide) (by decide)

/-- The UPDATE keyed by subscriber id rewrites a matching row with the
field changes applied. -/
theorem exists_updated_profile (db : Db) (u : String) (f : Profile → Profile)
    {p : Profile} (hp : p ∈ db.profiles) (hid : p.id = u)
    (P : Profile → Prop) (hP : P (f p)) :
    ∃ p' ∈ (updateProfileAtomic db u f).profiles, P p' := by
  refine ⟨f p, ?_, hP⟩
  simp only [updateProfileAtomic]
  have he : (fun q => if q.id == u then f q else q) p = f p := by simp [hid]
  exact he ▸ List.mem_map_of_mem _ hp

/-- The UPDATE keyed by subscriber id leaves non-matching rows as they
were. -/
theorem mem_updateProfileAtomic_of_ne (db : Db) (u : String) (f : Profile → Profile)
    {p : Profile} (hp : p ∈ db.profiles) (hid : p.id ≠ u) :
    p ∈ (updateProfileAtomic db u f).profiles := by
  simp only [updateProfileAtomic]
  have he : (fun q => if q.id == u then f q else q) p = p := by simp [hid]
  exact he ▸ List.mem_map_of_mem _ hp

/-- C2: processing a subscription-deleted event that resolves to a
profile either grants a grace period, when the event's period end lies
in the future, leaving the row active with its plan and usage intact and
marking it non-renewing, or ends the subscription immediately, when the
period end is past or absent, clearing plan, access, usage and the
pending and grace fields. -/
theorem subscription_deleted_grace_or_end (db : Db) (subId : String)
    (profile : Profile) (now : Int)
    (hfind : findProfileBySubscription db.profiles subId = some profile) :
    (∀ cpe : Int, now < cpe →
      ∀ p ∈ db.profiles, p.id = profile.id →
        ∃ p' ∈ (handleSubscriptionDeleted db subId (some cpe) now).profiles,
          p'.active = true ∧ p'.plan_id = p.plan_id ∧
          p'.cancel_at_period_end = true ∧ p'.plan_used = p.plan_used) ∧
    (∀ cpe : Int, cpe ≤ now →
      ∀ p ∈ db.profiles, p.id = profile.id →
        ∃ p' ∈ (handleSubscriptionDeleted db subId (some cpe) now).profiles,
          p'.plan_id = none ∧ p'.active = false ∧ p'.plan_used = 0 ∧
          p'.pending_plan_change = false ∧ p'.target_plan_id = none ∧
          p'.cancel_at_period_end = false) ∧
    (∀ p ∈ db.profiles, p.id = profile.id →
      ∃ p' ∈ (handleSubscriptionDeleted db subId none now).profiles,
        p'.plan_id = none ∧ p'.active = false ∧ p'.plan_used = 0 ∧
        p'.pending_plan_change = false ∧ p'.target_plan_id = none ∧
        p'.cancel_at_period_end = false) := by
  refine ⟨?_, ?_, ?_⟩
  · intro cpe hc p hp hid
    have hred : handleSubscriptionDeleted db subId (some cpe) now =
        updateProfileAtomic db profile.id (fun p =>
          { p with active := true,
                   cancel_at_period_end := true,
                   current_period_end := some cpe,
                   subscription_status := "canceled" }) := by
      simp [handleSubscriptionDeleted, hfind, hc]
    rw [hred]
    exact exists_updated_profile db profile.id _ hp hid _ (by simp)
  · intro cpe hc p hp hid
    have hnc : ¬ now < cpe := not_lt.mpr hc
    have hred : handleSubscriptionDeleted db subId (some cpe) now =
        updateProfileAtomic db profile.id (fun p =>
          { p with plan_id := none,
                   active := false,
                   current_period_end := none,
                   plan_used := 0,
                   cancel_at_period_end := false,
                   subscription_status := "canceled",
                   pending_plan_change := false,
                   target_plan_id := none }) := by
      simp [handleSubscriptionDeleted, hfind, hnc]
    rw [hred]
    exact exists_updated_profile db profile.id _ hp hid _ (by simp)
  · intro p hp hid
    have hred : handleSubscriptionDeleted db subId none now =
        updateProfileAtomic db profile.id (fun p =>
          { p with plan_id := none,
                   active := false,
                   current_period_end := none,
                   plan_used := 0,
                   cancel_at_period_end := false,
                   subscription_status := "canceled",
                   pending_plan_change := false,
                   target_plan_id := none }) := by
      simp [handleSubscriptionDeleted, hfind]
    rw [hred]
    exact exists_updated_profile db profile.id _ hp hid _ (by simp)

/-- Witness for the subscription-deleted theorem at a concrete store. -/
theorem subscription_deleted_witness :
    (∀ cpe : Int, (0 : Int) < cpe →
      ∀ p ∈ c2Db.profiles, p.id = c2Profile.id →
        ∃ p' ∈ (handleSubscriptionDeleted c2Db ("sub_2") (some cpe) 0).profiles,
          p'.active = true ∧ p'.plan_id = p.plan_id ∧
          p'.cancel_at_period_end = true ∧ p'.plan_used = p.plan_used) ∧
    (∀ cpe : Int, cpe ≤ (0 : Int) →
      ∀ p ∈ c2Db.profiles, p.id = c2Profile.id →
        ∃ p' ∈ (handleSubscriptionDeleted c2Db ("sub_2") (some cpe) 0).profiles,
          p'.plan_id = none ∧ p'.active = false ∧ p'.plan_used = 0 ∧
          p'.pending_plan_change = false ∧ p'.target_plan_id = none ∧
          p'.cancel_at_period_end = false) ∧
    (∀ p ∈ c2Db.profiles, p.id = c2Profile.id →
      ∃ p' ∈ (handleSubscriptionDeleted c2Db ("sub_2") none 0).profiles,
        p'.plan_id = none ∧ p'.active = false ∧ p'.plan_used = 0 ∧
        p'.pending_plan_change = false ∧ p'.target_plan_id = none ∧
        p'.cancel_at_period_end = false) :=
  subscription_deleted_grace_or_end c2Db ("sub_2") c2Profile 0 (by decide)

@[simp] theorem profiles_logAlert (db : Db) (a : Alert) :
    (logAlert db a).profiles = db.profiles := rfl

/-- C3: a subscription-updated event whose price resolves to a new plan,
hitting a profile whose current plan also resolves, is classified a
downgrade exactly when the new usage limit is strictly below the old
one, in which case usage is reset to 0; otherwise usage is preserved; in
both cases the plan is switched and the pending fields are cleared.  The
classification reads only the usage limits: changing the price amounts
of either plan never changes it. -/
theorem subscription_updated_downgrade_upgrade (db : Db) (subId status : String)
    (cap : Bool) (priceId : String) (rpe : Option Int)
    (profile : Profile) (oldId : String) (oldPlan newPlan : Plan)
    (hfind : findProfileBySubscription db.profiles subId = some profile)
    (hold : profile.plan_id = some oldId)
    (holdPlan : singleRow db.plans (fun pl => pl.plan_id == oldId) = some oldPlan)
    (hnew : findPlanByPrice db.plans priceId = some newPlan) :
    (∀ p ∈ db.profiles, p.id = profile.id →
      ∃ p' ∈ (handleSubscriptionUpdated db subId status cap (some priceId) rpe).profiles,
        p'.plan_id = some newPlan.plan_id ∧
        p'.pending_plan_change = false ∧ p'.target_plan_id = none ∧
        p'.plan_used =
          (if newPlan.monthly_limit < oldPlan.monthly_limit then 0 else p.plan_used)) ∧
    (∀ (np op : Plan) (a b a2 b2 : Int),
      isDowngradeOf (np.withPriceAmounts a b) (some (op.withPriceAmounts a2 b2)) =
        isDowngradeOf np (some op)) := by
  constructor
  · intro p hp hid
    by_cases hval : isValidSubscriptionStatus status <;>
      [simp only [handleSubscriptionUpdated, hfind, hnew, hold, holdPlan, hval,
        if_true, if_false, Bool.false_eq_true];
       simp only [handleSubscriptionUpdated, hfind, hnew, hold, holdPlan, hval,
        if_true, if_false, Bool.false_eq_true]] <;>
    · refine exists_updated_profile _ profile.id _ hp hid _ ?_
      by_cases hd : newPlan.monthly_limit < oldPlan.monthly_limit <;>
        simp [isDowngradeOf, hd]
  · intro np op a b a2 b2
    rfl

/-- Witness for the update theorem: the spec's downgrade example, limit
200 to limit 50 with usage 45. -/
theorem subscription_updated_witness :
    (∀ p ∈ c3Db.profiles, p.id = c3Profile.id →
      ∃ p' ∈ (handleSubscriptionUpdated c3Db ("sub_3") ("active") false
          (some ("price_b_pln")) none).profiles,
        p'.plan_id = some c3PlanNew.plan_id ∧
        p'.pending_plan_change = false ∧ p'.target_plan_id = none ∧
        p'.plan_used =
          (if c3PlanNew.monthly_limit < c3PlanOld.monthly_limit then 0 else p.plan_used)) ∧
    (∀ (np op : Plan) (a b a2 b2 : Int),
      isDowngradeOf (np.withPriceAmounts a b) (some (op.withPriceAmounts a2 b2)) =
        isDowngradeOf np (some op)) :=
  subscription_updated_downgrade_upgrade c3Db ("sub_3") ("active") false ("price_b_pln") none
    c3Profile ("plan_a") c3PlanOld c3PlanNew (by decide) (by decide) (by decide) (by decide)

@[simp] theorem alerts_updateProfileAtomic (db : Db) (u : String) (f : Profile → Profile) :
    (updateProfileAtomic db u f).alerts = db.alerts := rfl

/-- C5: a checkout-completed event whose line-item price resolves to no
plan grants no access: the profile is set inactive, the external
customer and subscription references are still recorded, the plan field
is left untouched, and exactly one critical alert is appended. -/
theorem checkout_unresolved_price_no_access (db : Db) (customer : Option String)
    (subId userId priceId : String)
    (hplan : findPlanByPrice db.plans priceId = none) :
    (∀ p ∈ db.profiles, p.id = userId →
      ∃ p' ∈ (handleCheckoutCompleted db customer (some subId) (some userId)
          (some priceId)).profiles,
        p'.active = false ∧ p'.stripe_customer_id = customer ∧
        p'.stripe_subscription_id = some subId ∧ p'.plan_id = p.plan_id) ∧
    ∃ a : Alert, (handleCheckoutCompleted db customer (some subId) (some userId)
        (some priceId)).alerts = a :: db.alerts ∧ a.severity = "critical" := by
  have hred : handleCheckoutCompleted db customer (some subId) (some userId) (some priceId) =
      updateProfileAtomic
        (logAlert db { type := "missing_price_id", severity := "critical",
                       message := "Plan not found for price_id" })
        userId
        (fun p => { p with stripe_customer_id := customer,
                           stripe_subscription_id := some subId,
                           active := false, pending_plan_change := false }) := by
    simp [handleCheckoutCompleted, hplan]
  constructor
  · intro p hp hid
    rw [hred]
    exact exists_updated_profile _ userId _ hp hid _ (by simp)
  · exact ⟨_, by rw [hred]; rfl, rfl⟩

/-- Witness for the unresolved-price theorem at a concrete store. -/
theorem checkout_unresolved_price_witness :
    (∀ p ∈ c5Db.profiles, p.id = "user_5" →
      ∃ p' ∈ (handleCheckoutCompleted c5Db (some ("cus_5")) (some ("sub_5")) (some ("user_5"))
          (some ("price_zz"))).profiles,
        p'.active = false ∧ p'.stripe_customer_id = some ("cus_5") ∧
        p'.stripe_subscription_id = some ("sub_5") ∧ p'.plan_id = p.plan_id) ∧
    ∃ a : Alert, (handleCheckoutCompleted c5Db (some ("cus_5")) (some ("sub_5"))
        (some ("user_5")) (some ("price_zz"))).alerts = a :: c5Db.alerts ∧
      a.severity = "critical" :=
  checkout_unresolved_price_no_access c5Db (some ("cus_5")) ("sub_5") ("user_5") ("price_zz")
    (by decide)

/-- C6: an invoice-payment-failed event resolving to a profile changes
nothing while the processor still has a retry scheduled; on the final
attempt it revokes access, clears the plan, marks the status unpaid and
appends exactly one warning alert. -/
theorem invoice_payment_failed_retry_or_final (db : Db) (subId : String) (profile : Profile)
    (hfind : findProfileBySubscription db.profiles subId = some profile) :
    (∀ t : Int, handleInvoicePaymentFailed db (some subId) (some t) = db) ∧
    (∀ p ∈ db.profiles, p.id = profile.id →
      ∃ p' ∈ (handleInvoicePaymentFailed db (some subId) none).profiles,
        p'.active = false ∧ p'.plan_id = none ∧ p'.subscription_status = "unpaid") ∧
    ∃ a : Alert, (handleInvoicePaymentFailed db (some subId) none).alerts = a :: db.alerts ∧
      a.severity = "warning" := by
  have hred : handleInvoicePaymentFailed db (some subId) none =
      logAlert
        (updateProfileAtomic db profile.id (fun p =>
          { p with active := false, plan_id := none, subscription_status := "unpaid" }))
        { type := "subscription_mismatch", severity := "warning",
          message := "Payment failed final attempt, subscription deactivated" } := by
    simp [handleInvoicePaymentFailed, hfind]
  refine ⟨?_, ?_, ?_⟩
  · intro t
    simp [handleInvoicePaymentFailed, hfind]
  · intro p hp hid
    rw [hred]
    simp only [profiles_logAlert]
    exact exists_updated_profile db profile.id _ hp hid _ (by simp)
  · exact ⟨_, by rw [hred]; rfl, rfl⟩

/-- Witness for the payment-failed theorem at a concrete store. -/
theorem invoice_payment_failed_witness :
    (∀ t : Int, handleInvoicePaymentFailed c6Db (some ("sub_6")) (some t) = c6Db) ∧
    (∀ p ∈ c6Db.profiles, p.id = c6Profile.id →
      ∃ p' ∈ (handleInvoicePaymentFailed c6Db (some ("sub_6")) none).profiles,
        p'.active = false ∧ p'.plan_id = none ∧ p'.subscription_status = "unpaid") ∧
    ∃ a : Alert, (handleInvoicePaymentFailed c6Db (some ("sub_6")) none).alerts
        = a :: c6Db.alerts ∧ a.severity = "warning" :=
  invoice_payment_failed_retry_or_final c6Db ("sub_6") c6Profile (by decide)

/-- C10: an invoice-payment-succeeded event resolving to a profile that
was marked cancel_at_period_end clears that mark (auto-renewal
semantics), resets usage to 0 and sets the row active. -/
theorem invoice_payment_succeeded_uncancels (db : Db)
    (subscription linesSubscription subscriptionDetailsId : Option String)
    (rpe : Option Int) (subId : String) (profile : Profile)
    (hres : resolveInvoiceSubscription subscription linesSubscription subscriptionDetailsId
      = some subId)
    (hfind : findProfileBySubscription db.profiles subId = some profile)
    (_hcancel : profile.cancel_at_period_end = true) :
    ∀ p ∈ db.profiles, p.id = profile.id →
      ∃ p' ∈ (handleInvoicePaymentSucceeded db subscription linesSubscription
          subscriptionDetailsId rpe).profiles,
        p'.cancel_at_period_end = false ∧ p'.plan_used = 0 ∧ p'.active = true := by
  intro p hp hid
  simp only [handleInvoicePaymentSucceeded, hres, hfind]
  refine exists_updated_profile db profile.id _ hp hid _ ?_
  cases rpe <;> simp

/-- Witness for the payment-succeeded theorem at a concrete store. -/
theorem invoice_payment_succeeded_witness :
    ∃ p' ∈ (handleInvoicePaymentSucceeded c10Db (some ("sub_10")) none none
        (some 2000)).profiles,
      p'.cancel_at_period_end = false ∧ p'.plan_used = 0 ∧ p'.active = true :=
  invoice_payment_succeeded_uncancels c10Db (some ("sub_10")) none none (some 2000)
    ("sub_10") c10Profile (by decide) (by decide) (by decide)
    c10Profile (by decide) (by decide)

/-- A profile UPDATE preserves the pending-fields biconditional whenever
the applied field changes preserve it on every matching row. -/
theorem dbPendingConsistent_updateProfileAtomic (db : Db) (u : String) (f : Profile → Profile)
    (hf : ∀ p ∈ db.profiles, p.id = u → pendingConsistent p = true →
      pendingConsistent (f p) = true)
    (h : dbPendingConsistent db = true) :
    dbPendingConsistent (updateProfileAtomic db u f) = true := by
  simp only [dbPendingConsistent, updateProfileAtomic, List.all_eq_true] at h ⊢
  intro q hq
  rcases List.mem_map.mp hq with ⟨p, hp, rfl⟩
  by_cases hid : p.id = u
  · simpa [hid] using hf p hp hid (h p hp)
  · simpa [hid] using h p hp

/-- The pending-state write of the checkout handler establishes the
pending-fields biconditional: it sets the flag and the target together. -/
theorem dbPendingConsistent_setPendingState (db : Db) (u t : String) (n : Int)
    (h : dbPendingConsistent db = true) :
    dbPendingConsistent (setPendingState db u t n) = true :=
  dbPendingConsistent_updateProfileAtomic db u _ (fun _ _ _ _ => rfl) h

/-- Steps 7 to 9 of the checkout handler preserve the pending-fields
biconditional: they either leave the store alone or run the
pending-state write, which establishes it. -/
theorem checkoutContinue_pendingConsistent (db : Db) (userId : String) (plan : Plan)
    (ep : Option Profile) (now : Int) (sv : Option StripeSubscriptionView)
    (url : Option String) (h : dbPendingConsistent db = true) :
    dbPendingConsistent (checkoutContinue db userId plan ep now sv url).2 = true := by
  unfold checkoutContinue
  repeat' first
    | exact h
    | exact dbPendingConsistent_setPendingState _ _ _ _ h
    | split
    | dsimp only

/-- The checkout handler preserves the pending-fields biconditional. -/
theorem checkoutPOST_pendingConsistent (db : Db) (user : Option String)
    (planName currency : String) (now : Int) (sv : Option StripeSubscriptionView)
    (url : Option String) (h : dbPendingConsistent db = true) :
    dbPendingConsistent (checkoutPOST db user planName currency now sv url).2 = true := by
  unfold checkoutPOST
  repeat' first
    | exact h
    | exact checkoutContinue_pendingConsistent _ _ _ _ _ _ _ h
    | split
    | dsimp only

/-- C4 counterexample: a checkout-completed event whose price resolves
to no plan clears pending_plan_change but leaves target_plan_id set, so
the biconditional fails on a store where it held. -/
theorem pending_invariant_counterexample :
    dbPendingConsistent c4Db = true ∧
    dbPendingConsistent (handleEvent c4Db c4Ev 0) = false := by
  constructor <;> rfl

/-- C4 (amended): every transition of the engine preserves the
biconditional between pending_plan_change and a non-null target_plan_id,
and the checkout initiation establishes it, with one exception: the
unresolved-plan branch of checkout-completed clears the flag without
clearing the target, so it preserves the biconditional only when the hit
profile's target is already null. -/
theorem pending_invariant_preserved :
    (∀ (db : Db) (e : StripeEvent) (now : Int),
      dbPendingConsistent db = true →
      clearsPendingWithoutTarget db e = false →
      dbPendingConsistent (handleEvent db e now) = true) ∧
    (∀ (db : Db) (user : Option String) (planName currency : String) (now : Int)
      (sv : Option StripeSubscriptionView) (url : Option String),
      dbPendingConsistent db = true →
      dbPendingConsistent (checkoutPOST db user planName currency now sv url).2 = true) := by
  constructor
  · intro db e now hinv hsafe
    cases e with
    | checkoutSessionCompleted customer subscriptionId metadataUserId lineItemPriceId =>
      cases metadataUserId with
      | none => exact hinv
      | some userId =>
        cases subscriptionId with
        | none => exact hinv
        | some subId =>
          cases lineItemPriceId with
          | none => exact hinv
          | some priceId =>
            cases hplan : findPlanByPrice db.plans priceId with
            | none =>
              have hany : db.profiles.any
                  (fun p => p.id == userId && p.target_plan_id.isSome) = false := by
                simpa [clearsPendingWithoutTarget, hplan] using hsafe
              simp only [handleEvent, handleCheckoutCompleted, hplan]
              refine dbPendingConsistent_updateProfileAtomic _ userId _ ?_ hinv
              intro p hp hid _
              have htgt : p.target_plan_id.isSome = false := by
                cases hval : p.target_plan_id.isSome
                · rfl
                · exfalso
                  have htrue : db.profiles.any
                      (fun q => q.id == userId && q.target_plan_id.isSome) = true :=
                    List.any_eq_true.mpr ⟨p, hp, by simp [hid, hval]⟩
                  rw [htrue] at hany
                  simp at hany
              simp [pendingConsistent, htgt]
            | some plan =>
              simp only [handleEvent, handleCheckoutCompleted, hplan]
              exact dbPendingConsistent_updateProfileAtomic _ userId _
                (fun _ _ _ _ => rfl) hinv
    | subscriptionCreated subscriptionId customer status priceId rpe =>
      cases priceId with
      | none => exact hinv
      | some pid =>
        cases hprof : findProfileByCustomer db.profiles customer with
        | none => simpa [handleEvent, handleSubscriptionCreated, hprof] using hinv
        | some profile =>
          cases hplan : findPlanByPrice db.plans pid with
          | none => simpa [handleEvent, handleSubscriptionCreated, hprof, hplan] using hinv
          | some plan =>
            simp only [handleEvent, handleSubscriptionCreated, hprof, hplan]
            refine dbPendingConsistent_updateProfileAtomic _ profile.id _
              (fun _ _ _ _ => rfl) ?_
            show dbPendingConsistent
              (if isValidSubscriptionStatus status then db else logAlert db _) = true
            split
            · exact hinv
            · exact hinv
    | subscriptionUpdated subscriptionId status cancelAtPeriodEnd priceId rpe =>
      cases priceId with
      | none => exact hinv
      | some pid =>
        cases hprof : findProfileBySubscription db.profiles subscriptionId with
        | none => simpa [handleEvent, handleSubscriptionUpdated, hprof] using hinv
        | some profile =>
          cases hplan : findPlanByPrice db.plans pid with
          | none =>
            simp only [handleEvent, handleSubscriptionUpdated, hprof, hplan]
            refine dbPendingConsistent_updateProfileAtomic _ profile.id _
              (fun _ _ _ hpc => hpc) ?_
            show dbPendingConsistent
              (if isValidSubscriptionStatus status then db else logAlert db _) = true
            split
            · exact hinv
            · exact hinv
          | some newPlan =>
            simp only [handleEvent, handleSubscriptionUpdated, hprof, hplan]
            refine dbPendingConsistent_updateProfileAtomic _ profile.id _ ?_ ?_
            · intro p _ _ _
              simp only [pendingConsistent]
              split <;> rfl
            · show dbPendingConsistent
                (if isValidSubscriptionStatus status then db else logAlert db _) = true
              split
              · exact hinv
              · exact hinv
    | subscriptionDeleted subscriptionId currentPeriodEnd =>
      cases hprof : findProfileBySubscription db.profiles subscriptionId with
      | none => simpa [handleEvent, handleSubscriptionDeleted, hprof] using hinv
      | some profile =>
        simp only [handleEvent, handleSubscriptionDeleted, hprof]
        split
        · exact dbPendingConsistent_updateProfileAtomic _ profile.id _
            (fun _ _ _ hpc => hpc) hinv
        · exact dbPendingConsistent_updateProfileAtomic _ profile.id _
            (fun _ _ _ _ => rfl) hinv
    | invoicePaymentSucceeded s l d rpe =>
      cases hres : resolveInvoiceSubscription s l d with
      | none => simpa [handleEvent, handleInvoicePaymentSucceeded, hres] using hinv
      | some subId =>
        cases hprof : findProfileBySubscription db.profiles subId with
        | none => simpa [handleEvent, handleInvoicePaymentSucceeded, hres, hprof] using hinv
        | some profile =>
          simp only [handleEvent, handleInvoicePaymentSucceeded, hres, hprof]
          refine dbPendingConsistent_updateProfileAtomic _ profile.id _ ?_ hinv
          intro p _ _ hpc
          cases rpe <;> exact hpc
    | invoicePaymentFailed s npa =>
      cases s with
      | none => exact hinv
      | some subId =>
        cases hprof : findProfileBySubscription db.profiles subId with
        | none => simpa [handleEvent, handleInvoicePaymentFailed, hprof] using hinv
        | some profile =>
          cases npa with
          | some t => simpa [handleEvent, handleInvoicePaymentFailed, hprof] using hinv
          | none =>
            simp only [handleEvent, handleInvoicePaymentFailed, hprof]
            exact dbPendingConsistent_updateProfileAtomic _ profile.id _
              (fun _ _ _ hpc => hpc) hinv
    | unhandled t => exact hinv
  · intro db user planName currency now sv url hinv
    exact checkoutPOST_pendingConsistent db user planName currency now sv url hinv

/-- Witness for the amended pending-fields theorem: a resolved update
event clears both pending fields together on a store where the
biconditional holds. -/
theorem pending_invariant_witness :
    dbPendingConsistent c3Db = true ∧
    dbPendingConsistent (handleEvent c3Db
      (StripeEvent.subscriptionUpdated ("sub_3") ("active") false
        (some ("price_b_pln")) none) 0) = true ∧
    dbPendingConsistent (checkoutPOST c4Db none ("Basic") ("PLN") 0 none none).2 = true :=
  ⟨by decide,
   pending_invariant_preserved.1 c3Db _ 0 (by decide) (by decide),
   pending_invariant_preserved.2 c4Db none ("Basic") ("PLN") 0 none none (by decide)⟩

/-- Every verified delivery whose session expansion does not throw is
answered 200, in both the duplicate and the fresh branch. -/
theorem webhookPOST_status_some (db : Db) (ev : WebhookEvent) (expandOk : Bool) (now : Int)
    (hx : sessionExpandThrows ev.body expandOk = false) :
    (webhookPOST db (some ev) expandOk now).1.status = 200 := by
  by_cases hd : isDuplicateEvent db ev.id <;> simp [webhookPOST, hd, hx]

/-- C7 counterexample: a verified, fresh checkout-completed event whose
un-guarded session-expansion call throws is answered 400 by the
catch-all even though it passed signature verification — after its id
was already recorded in the ledger; and a verified subscription-updated
event whose profile lookup fails is acknowledged with 200 while the
Alerting Sink records nothing. -/
theorem webhook_status_counterexample :
    (webhookPOST c7Db (some c7ExpandEv) false 0).1.status = 400 ∧
    isDuplicateEvent (webhookPOST c7Db (some c7ExpandEv) false 0).2 c7ExpandEv.id = true ∧
    findProfileBySubscription c7Db.profiles ("sub_c7") = none ∧
    (webhookPOST c7Db (some c7Ev) true 0).1.status = 200 ∧
    ((webhookPOST c7Db (some c7Ev) true 0).2).alerts = c7Db.alerts :=
  ⟨rfl, rfl, rfl, rfl, rfl⟩

/-- C7 (amended): the webhook endpoint answers 400 exactly when
signature verification or payload parsing fails, or when the one
un-guarded external call of the switch — the session expansion of a
fresh checkout-completed event that passed its metadata and subscription
checks — throws; in the throwing case the event id is nevertheless
already recorded in the ledger and nothing else changes, so a
redelivery only hits the duplicate short-circuit.  Every other verified
delivery is acknowledged with 200 whatever the downstream processing
outcome. -/
theorem webhook_status_400_iff_parse_failure (db : Db) (parsedEvent : Option WebhookEvent)
    (expandOk : Bool) (now : Int) :
    ((webhookPOST db parsedEvent expandOk now).1.status = 400 ↔
      (parsedEvent = none ∨
        ∃ ev, parsedEvent = some ev ∧ isDuplicateEvent db ev.id = false ∧
          sessionExpandThrows ev.body expandOk = true)) ∧
    (∀ ev, parsedEvent = some ev → isDuplicateEvent db ev.id = false →
      sessionExpandThrows ev.body expandOk = true →
      (webhookPOST db parsedEvent expandOk now).2 = logWebhookEvent db ev.id) ∧
    (∀ ev, parsedEvent = some ev → sessionExpandThrows ev.body expandOk = false →
      (webhookPOST db parsedEvent expandOk now).1.status = 200) := by
  cases parsedEvent with
  | none =>
      refine ⟨by simp [webhookPOST], ?_, ?_⟩
      · intro ev h
        cases h
      · intro ev h
        cases h
  | some ev =>
      refine ⟨?_, ?_, ?_⟩
      · by_cases hd : isDuplicateEvent db ev.id <;>
          by_cases hx : sessionExpandThrows ev.body expandOk <;>
          simp [webhookPOST, hd, hx]
      · intro ev2 h2 hd hx
        cases h2
        simp [webhookPOST, hd, hx]
      · intro ev2 h2 hx
        cases h2
        exact webhookPOST_status_some db ev expandOk now hx

/-- Witness for the response-status theorem at the throwing input. -/
theorem webhook_status_witness :
    ((webhookPOST c7Db (some c7ExpandEv) false 0).1.status = 400 ↔
      ((some c7ExpandEv : Option WebhookEvent) = none ∨
        ∃ ev, (some c7ExpandEv : Option WebhookEvent) = some ev ∧
          isDuplicateEvent c7Db ev.id = false ∧
          sessionExpandThrows ev.body false = true)) ∧
    (∀ ev, (some c7ExpandEv : Option WebhookEvent) = some ev →
      isDuplicateEvent c7Db ev.id = false →
      sessionExpandThrows ev.body false = true →
      (webhookPOST c7Db (some c7ExpandEv) false 0).2 = logWebhookEvent c7Db ev.id) ∧
    (∀ ev, (some c7ExpandEv : Option WebhookEvent) = some ev →
      sessionExpandThrows ev.body false = false →
      (webhookPOST c7Db (some c7ExpandEv) false 0).1.status = 200) :=
  webhook_status_400_iff_parse_failure c7Db (some c7ExpandEv) false 0

/-- C8 counterexample: a subscription-updated event whose subscription
reference matches no profile is dropped as a no-op without any alert; no
metadata-id or customer-ref fallback is attempted before giving up. -/
theorem identity_resolution_counterexample :
    findProfileBySubscription c8Db.profiles ("sub_c8") = none ∧
    handleEvent c8Db c8Ev 0 = c8Db :=
  ⟨rfl, rfl⟩

/-- C8 (amended): profile lookup is per event type, each trying a single
identifier: checkout-completed the metadata subscriber id,
subscription-created the external customer ref, subscription-updated,
subscription-deleted and both invoice events the external subscription
ref.  A failed lookup mutates no profile; it appends one warning alert
in the checkout-completed and subscription-created cases and nothing in
the others. -/
theorem identity_resolution_per_event :
    (∀ (db : Db) (customer subscriptionId lineItemPriceId : Option String),
      (handleCheckoutCompleted db customer subscriptionId none lineItemPriceId).profiles
        = db.profiles ∧
      ∃ a : Alert, (handleCheckoutCompleted db customer subscriptionId none
          lineItemPriceId).alerts = a :: db.alerts ∧ a.severity = "warning") ∧
    (∀ (db : Db) (sid customer status pid : String) (rpe : Option Int),
      findProfileByCustomer db.profiles customer = none →
      (handleSubscriptionCreated db sid customer status (some pid) rpe).profiles
        = db.profiles ∧
      ∃ a : Alert, (handleSubscriptionCreated db sid customer status (some pid) rpe).alerts
          = a :: db.alerts ∧ a.severity = "warning") ∧
    (∀ (db : Db) (sid status : String) (cap : Bool) (pid : String) (rpe : Option Int),
      findProfileBySubscription db.profiles sid = none →
      handleSubscriptionUpdated db sid status cap (some pid) rpe = db) ∧
    (∀ (db : Db) (sid : String) (cpe : Option Int) (now : Int),
      findProfileBySubscription db.profiles sid = none →
      handleSubscriptionDeleted db sid cpe now = db) ∧
    (∀ (db : Db) (s l d : Option String) (rpe : Option Int) (sid : String),
      resolveInvoiceSubscription s l d = some sid →
      findProfileBySubscription db.profiles sid = none →
      handleInvoicePaymentSucceeded db s l d rpe = db) ∧
    (∀ (db : Db) (sid : String) (npa : Option Int),
      findProfileBySubscription db.profiles sid = none →
      handleInvoicePaymentFailed db (some sid) npa = db) := by
  refine ⟨?_, ?_, ?_, ?_, ?_, ?_⟩
  · intro db customer subscriptionId lineItemPriceId
    exact ⟨rfl, ⟨_, rfl, rfl⟩⟩
  · intro db sid customer status pid rpe h
    simp only [handleSubscriptionCreated, h]
    exact ⟨rfl, ⟨_, rfl, rfl⟩⟩
  · intro db sid status cap pid rpe h
    simp [handleSubscriptionUpdated, h]
  · intro db sid cpe now h
    simp [handleSubscriptionDeleted, h]
  · intro db s l d rpe sid hres h
    simp [handleInvoicePaymentSucceeded, hres, h]
  · intro db sid npa h
    simp [handleInvoicePaymentFailed, h]

/-- Witness for the identity-resolution theorem at a concrete store. -/
theorem identity_resolution_witness :
    handleSubscriptionUpdated c8Db ("sub_c8") ("active") false (some ("price_c8")) none
      = c8Db ∧
    handleSubscriptionDeleted c8Db ("sub_c8") none 0 = c8Db ∧
    handleInvoicePaymentFailed c8Db (some ("sub_c8")) none = c8Db :=
  ⟨identity_resolution_per_event.2.2.1 c8Db ("sub_c8") ("active") false ("price_c8") none
    (by decide),
   identity_resolution_per_event.2.2.2.1 c8Db ("sub_c8") none 0 (by decide),
   identity_resolution_per_event.2.2.2.2.2 c8Db ("sub_c8") none (by decide)⟩

/-- When steps 7 to 9 of the checkout handler answer 303, the store they
return is exactly the pending-state write. -/
theorem checkoutContinue_303 (db : Db) (userId : String) (plan : Plan)
    (ep : Option Profile) (now : Int) (sv : Option StripeSubscriptionView)
    (url : Option String) (r : CheckoutResponse) (db1 : Db)
    (hrun : checkoutContinue db userId plan ep now sv url = (r, db1))
    (h303 : r.status = 303) :
    db1 = setPendingState db userId plan.plan_id now := by
  unfold checkoutContinue at hrun
  repeat' first | dsimp only at hrun | split at hrun
  all_goals
    injection hrun with hr hdb
  all_goals
    first
    | (subst hdb; rfl)
    | (rw [← hr] at h303; simp at h303)

/-- When the checkout handler answers 303, the store it returns is the
pending-state write for the plan its case-insensitive name lookup
found. -/
theorem checkoutPOST_303 (db : Db) (u pn cur : String) (n0 : Int)
    (sv : Option StripeSubscriptionView) (url : Option String)
    (r : CheckoutResponse) (db1 : Db) (pl : Plan)
    (hpl : singleRow db.plans (fun q => ilikeName q.name pn) = some pl)
    (hrun : checkoutPOST db (some u) pn cur n0 sv url = (r, db1))
    (h303 : r.status = 303) :
    db1 = setPendingState db u pl.plan_id n0 := by
  simp only [checkoutPOST, hpl] at hrun
  repeat' first | dsimp only at hrun | split at hrun
  all_goals
    first
    | exact checkoutContinue_303 _ _ _ _ _ _ _ _ _ hrun h303
    | (injection hrun with hr hdb; rw [← hr] at h303; simp at h303)

/-- C9: a checkout initiation arriving less than 60 seconds after the
recorded last_checkout_at of the caller's profile is refused with 429
and a remaining-seconds hint, independently of every external-processor
oracle, and the store is returned unchanged — the rate-limit check comes
before every profile mutation and every external call.  Conversely a
successful (303) initiation is what records pending_plan_change, the
target plan and last_checkout_at = now. -/
theorem checkout_rate_limited (db : Db) (userId planName currency : String)
    (now t : Int) (p : Profile) (plan : Plan) (priceRef : String)
    (hcur : (currency == "PLN" || currency == "USD") = true)
    (hplan : singleRow db.plans (fun pl => ilikeName pl.name planName) = some plan)
    (href : (if currency = "PLN" then plan.stripe_price_id_pln
             else plan.stripe_price_id_usd) = some priceRef)
    (hprof : findProfileById db.profiles userId = some p)
    (hlast : p.last_checkout_at = some t)
    (hwin : now - t < 60000) :
    (∀ (sv : Option StripeSubscriptionView) (url : Option String),
      checkoutPOST db (some userId) planName currency now sv url =
        ({ status := 429,
           remainingSeconds := some ((60000 - (now - t) + 999) / 1000) }, db)) ∧
    (∀ (db0 : Db) (u pn cur : String) (n0 : Int) (sv : Option StripeSubscriptionView)
        (url : Option String) (r : CheckoutResponse) (db1 : Db) (pl : Plan),
      singleRow db0.plans (fun q => ilikeName q.name pn) = some pl →
      checkoutPOST db0 (some u) pn cur n0 sv url = (r, db1) →
      r.status = 303 →
      ∀ q ∈ db0.profiles, q.id = u →
        ∃ q' ∈ db1.profiles, q'.pending_plan_change = true ∧
          q'.target_plan_id = some pl.plan_id ∧ q'.last_checkout_at = some n0) := by
  constructor
  · intro sv url
    simp [checkoutPOST, hplan, hcur, hprof, hlast, href, hwin]
  · intro db0 u pn cur n0 sv url r db1 pl hpl hrun h303 q hq hid
    have hdb1 := checkoutPOST_303 db0 u pn cur n0 sv url r db1 pl hpl hrun h303
    subst hdb1
    exact exists_updated_profile db0 u _ hq hid _ ⟨rfl, rfl, rfl⟩

/-- Witness for the rate-limit theorem: second initiation 30 seconds
after the first, answered 429 with a 30-second hint. -/
theorem checkout_rate_limited_witness :
    (∀ (sv : Option StripeSubscriptionView) (url : Option String),
      checkoutPOST c9Db (some ("user_9")) ("pro") ("PLN") 130000 sv url =
        ({ status := 429,
           remainingSeconds := some ((60000 - (130000 - 100000) + 999) / 1000) }, c9Db)) ∧
    (∀ (db0 : Db) (u pn cur : String) (n0 : Int) (sv : Option StripeSubscriptionView)
        (url : Option String) (r : CheckoutResponse) (db1 : Db) (pl : Plan),
      singleRow db0.plans (fun q => ilikeName q.name pn) = some pl →
      checkoutPOST db0 (some u) pn cur n0 sv url = (r, db1) →
      r.status = 303 →
      ∀ q ∈ db0.profiles, q.id = u →
        ∃ q' ∈ db1.profiles, q'.pending_plan_change = true ∧
          q'.target_plan_id = some pl.plan_id ∧ q'.last_checkout_at = some n0) :=
  checkout_rate_limited c9Db ("user_9") ("pro") ("PLN") 130000 100000 c9Profile c9Plan
    ("price_c9") (by decide) (by decide) (by decide) (by decide) (by decide) (by decide)

end WrapperSaas
